import Mathlib

/-!
Verification of the pybirdwatcher client library.

This development is a shallow embedding of the Python sources
`pybirdwatcher/models.py` and `pybirdwatcher/client.py`:

* the four wire enumerations and their total wire-to-member conversions;
* the per-entity mapping functions (`from_dict`) from generic decoded
  records, with Python dictionary `get`-with-default semantics made
  explicit through option-typed wire records;
* the segment fill-ratio and small-segment predicate (exact rationals
  stand in for Python float division; all boundary inputs used in the
  claims are exactly representable);
* the command composer of `Birdwatcher._run_command` (connection
  sub-command prefixing with Python truthiness checks);
* the payload extractor of `Birdwatcher._run_json` together with an
  executable model of `json.loads`;
* the failure classifier for nonzero subprocess exits;
* the segment-statistics fold of `Birdwatcher.get_segment_stats`.

Subprocess execution itself is abstracted as an oracle from composed
command strings to decoded records; the number of oracle invocations is
traced explicitly so that single-listing properties are statable.
-/

/-! ### Enumerations (`models.py`) -/

inductive SegmentState where
  | SEGMENT_STATE_NONE
  | NOT_EXIST
  | GROWING
  | SEALED
  | FLUSHED
  | FLUSHING
  | DROPPED
  | IMPORTING
  deriving DecidableEq, Repr

/-- The Python `Enum` member name (`member.name`). -/
def SegmentState.pyName : SegmentState → String
  | .SEGMENT_STATE_NONE => "SEGMENT_STATE_NONE"
  | .NOT_EXIST => "NOT_EXIST"
  | .GROWING => "GROWING"
  | .SEALED => "SEALED"
  | .FLUSHED => "FLUSHED"
  | .FLUSHING => "FLUSHING"
  | .DROPPED => "DROPPED"
  | .IMPORTING => "IMPORTING"

/-- The literal mapping dictionary of `SegmentState.from_string`. -/
def SegmentState.wireTable : List (String × SegmentState) :=
  [("SegmentStateNone", .SEGMENT_STATE_NONE),
   ("NotExist", .NOT_EXIST),
   ("Growing", .GROWING),
   ("Sealed", .SEALED),
   ("Flushed", .FLUSHED),
   ("Flushing", .FLUSHING),
   ("Dropped", .DROPPED),
   ("Importing", .IMPORTING)]

/-- `SegmentState.from_string`: `mapping.get(s, cls.SEGMENT_STATE_NONE)`. -/
def SegmentState.from_string (s : String) : SegmentState :=
  (SegmentState.wireTable.lookup s).getD .SEGMENT_STATE_NONE

inductive SegmentLevel where
  | LEGACY
  | L0
  | L1
  | L2
  deriving DecidableEq, Repr

/-- The Python `Enum` member name (`member.name`). -/
def SegmentLevel.pyName : SegmentLevel → String
  | .LEGACY => "LEGACY"
  | .L0 => "L0"
  | .L1 => "L1"
  | .L2 => "L2"

/-- The literal mapping dictionary of `SegmentLevel.from_string`. -/
def SegmentLevel.wireTable : List (String × SegmentLevel) :=
  [("Legacy", .LEGACY), ("L0", .L0), ("L1", .L1), ("L2", .L2)]

/-- `SegmentLevel.from_string`: `mapping.get(s, cls.LEGACY)`. -/
def SegmentLevel.from_string (s : String) : SegmentLevel :=
  (SegmentLevel.wireTable.lookup s).getD .LEGACY

inductive CollectionState where
  | COLLECTION_CREATED
  | COLLECTION_CREATING
  | COLLECTION_DROPPING
  | COLLECTION_DROPPED
  deriving DecidableEq, Repr

/-- The Python `Enum` member name (`member.name`). -/
def CollectionState.pyName : CollectionState → String
  | .COLLECTION_CREATED => "COLLECTION_CREATED"
  | .COLLECTION_CREATING => "COLLECTION_CREATING"
  | .COLLECTION_DROPPING => "COLLECTION_DROPPING"
  | .COLLECTION_DROPPED => "COLLECTION_DROPPED"

/-- The literal mapping dictionary of `CollectionState.from_string`. -/
def CollectionState.wireTable : List (String × CollectionState) :=
  [("CollectionCreated", .COLLECTION_CREATED),
   ("CollectionCreating", .COLLECTION_CREATING),
   ("CollectionDropping", .COLLECTION_DROPPING),
   ("CollectionDropped", .COLLECTION_DROPPED)]

/-- `CollectionState.from_string`: `mapping.get(s, cls.COLLECTION_CREATED)`. -/
def CollectionState.from_string (s : String) : CollectionState :=
  (CollectionState.wireTable.lookup s).getD .COLLECTION_CREATED

inductive DataType where
  | NONE
  | BOOL
  | INT8
  | INT16
  | INT32
  | INT64
  | FLOAT
  | DOUBLE
  | STRING
  | VARCHAR
  | ARRAY
  | JSON
  | GEOMETRY
  | TIMESTAMPTZ
  | BINARY_VECTOR
  | FLOAT_VECTOR
  | FLOAT16_VECTOR
  | BFLOAT16_VECTOR
  | SPARSE_FLOAT_VECTOR
  | INT8_VECTOR
  deriving DecidableEq, Repr

/-- The numeric value of each `DataType` member (`member.value`). -/
def DataType.value : DataType → Int
  | .NONE => 0
  | .BOOL => 1
  | .INT8 => 2
  | .INT16 => 3
  | .INT32 => 4
  | .INT64 => 5
  | .FLOAT => 10
  | .DOUBLE => 11
  | .STRING => 20
  | .VARCHAR => 21
  | .ARRAY => 22
  | .JSON => 23
  | .GEOMETRY => 24
  | .TIMESTAMPTZ => 26
  | .BINARY_VECTOR => 100
  | .FLOAT_VECTOR => 101
  | .FLOAT16_VECTOR => 102
  | .BFLOAT16_VECTOR => 103
  | .SPARSE_FLOAT_VECTOR => 104
  | .INT8_VECTOR => 105

/-- The members of `DataType`, in class definition order (`for member in cls`). -/
def DataType.members : List DataType :=
  [.NONE, .BOOL, .INT8, .INT16, .INT32, .INT64, .FLOAT, .DOUBLE, .STRING,
   .VARCHAR, .ARRAY, .JSON, .GEOMETRY, .TIMESTAMPTZ, .BINARY_VECTOR,
   .FLOAT_VECTOR, .FLOAT16_VECTOR, .BFLOAT16_VECTOR, .SPARSE_FLOAT_VECTOR,
   .INT8_VECTOR]

/-- The Python `Enum` member name (`member.name`), as used by `__members__`. -/
def DataType.pyName : DataType → String
  | .NONE => "NONE"
  | .BOOL => "BOOL"
  | .INT8 => "INT8"
  | .INT16 => "INT16"
  | .INT32 => "INT32"
  | .INT64 => "INT64"
  | .FLOAT => "FLOAT"
  | .DOUBLE => "DOUBLE"
  | .STRING => "STRING"
  | .VARCHAR => "VARCHAR"
  | .ARRAY => "ARRAY"
  | .JSON => "JSON"
  | .GEOMETRY => "GEOMETRY"
  | .TIMESTAMPTZ => "TIMESTAMPTZ"
  | .BINARY_VECTOR => "BINARY_VECTOR"
  | .FLOAT_VECTOR => "FLOAT_VECTOR"
  | .FLOAT16_VECTOR => "FLOAT16_VECTOR"
  | .BFLOAT16_VECTOR => "BFLOAT16_VECTOR"
  | .SPARSE_FLOAT_VECTOR => "SPARSE_FLOAT_VECTOR"
  | .INT8_VECTOR => "INT8_VECTOR"

/-- `cls.__members__` of `DataType`: member name to member, in definition order. -/
def DataType.membersTable : List (String × DataType) :=
  DataType.members.map fun m => (m.pyName, m)

/-- A dynamically typed Python value, as far as `DataType.from_value`
inspects it: an `int`, a `str`, or anything else. -/
inductive PyVal where
  | int (n : Int)
  | str (s : String)
  | other
  deriving DecidableEq, Repr

/-- Python `str.upper` restricted to ASCII, as `Char.toUpper`. -/
def pyUpper (s : String) : String :=
  String.mk (s.toList.map Char.toUpper)

/-- Python `str.replace(" ", "_")`: a single-character replacement is a
character-wise map. -/
def pyReplaceSpaceUnderscore (s : String) : String :=
  String.mk (s.toList.map fun c => if c = ' ' then '_' else c)

/-- `DataType.from_value`: the `int` branch scans members in definition
order for a matching value; the `str` branch normalizes the string with
`upper()` and `replace(" ", "_")` and looks it up in `__members__`; any
other value yields `NONE`. -/
def DataType.from_value : PyVal → DataType
  | .int n => ((DataType.members.find? fun m => m.value == n).getD .NONE)
  | .str s =>
      ((DataType.membersTable.lookup
        (pyReplaceSpaceUnderscore (pyUpper s))).getD .NONE)
  | .other => .NONE

/-- Keys recognized by `SegmentState.from_string`. -/
def SegmentState.wireKeys : List String := SegmentState.wireTable.map (·.1)

/-- Keys recognized by `SegmentLevel.from_string`. -/
def SegmentLevel.wireKeys : List String := SegmentLevel.wireTable.map (·.1)

/-- Keys recognized by `CollectionState.from_string`. -/
def CollectionState.wireKeys : List String := CollectionState.wireTable.map (·.1)

/-- Integer values carried by some `DataType` member. -/
def DataType.memberValues : List Int := DataType.members.map DataType.value

/-- Member names recognized by the `str` branch of `DataType.from_value`
(after normalization). -/
def DataType.memberNames : List String := DataType.members.map DataType.pyName

/-! ### Wire records and entity mappers (`models.py`)

A "wire record" models the generic decoded dictionary handed to a
`from_dict` classmethod.  Each top-level field is option-typed: `none`
models an absent key, for which Python's `dict.get(key, default)`
returns the default.  Python raises `KeyError` only for bare `kv["key"]`
subscripts, which occur in the key/value-pair comprehensions; this is
the only failure path and is modeled with `Except`. -/

inductive PyError where
  | keyError (key : String)
  deriving DecidableEq, Repr

/-- One element of a wire list of `{"key": ..., "value": ...}` records. -/
structure KVWire where
  key : Option String
  value : Option String
  deriving DecidableEq, Repr

/-- Python `dict` insertion: replace in place if the key exists, else
append (insertion order preserved). -/
def pyDictSet {α : Type} (d : List (String × α)) (k : String) (v : α) :
    List (String × α) :=
  match d with
  | [] => [(k, v)]
  | (k', v') :: t => if k' = k then (k', v) :: t else (k', v') :: pyDictSet t k v

/-- The pair extraction of `{kv["key"]: kv["value"] for kv in items}`:
iterating in order, each bare subscript raises `KeyError` when the field
is absent (the key subscript is evaluated before the value subscript). -/
def kvPairs (items : List KVWire) : Except PyError (List (String × String)) :=
  match items with
  | [] => .ok []
  | kv :: rest =>
      match kv.key with
      | none => .error (.keyError "key")
      | some k =>
          match kv.value with
          | none => .error (.keyError "value")
          | some v =>
              match kvPairs rest with
              | .error e => .error e
              | .ok ps => .ok ((k, v) :: ps)

/-- The comprehension `{kv["key"]: kv["value"] for kv in items}`: extract
the pairs in iteration order, then build a Python dict from them. -/
def kvDict (items : List KVWire) : Except PyError (List (String × String)) :=
  (kvPairs items).map fun ps => ps.foldl (fun d p => pyDictSet d p.1 p.2) []

/-- A key/value wire item with both subscripted fields present. -/
def KVWire.complete (kv : KVWire) : Prop :=
  kv.key.isSome = true ∧ kv.value.isSome = true

instance (kv : KVWire) : Decidable kv.complete := by
  unfold KVWire.complete
  infer_instance

/-- Wire record for `FieldSchema.from_dict`. -/
structure FieldSchemaWire where
  fieldID : Option Int := none
  name : Option String := none
  data_type : Option PyVal := none
  is_primary_key : Option Bool := none
  autoID : Option Bool := none
  is_partition_key : Option Bool := none
  is_clustering_key : Option Bool := none
  is_dynamic : Option Bool := none
  nullable : Option Bool := none
  type_params : Option (List KVWire) := none
  deriving DecidableEq, Repr

/-- The `FieldSchema` dataclass. -/
structure FieldSchema where
  field_id : Int
  name : String
  data_type : DataType
  is_primary_key : Bool := false
  auto_id : Bool := false
  is_partition_key : Bool := false
  is_clustering_key : Bool := false
  is_dynamic : Bool := false
  nullable : Bool := false
  type_params : List (String × String) := []
  deriving DecidableEq, Repr

/-- `FieldSchema.from_dict`: every top-level field defaults via
`data.get`, `data_type` goes through `DataType.from_value` (default
wire value `0`), and `type_params` is a key/value-pair comprehension. -/
def FieldSchema.from_dict (data : FieldSchemaWire) : Except PyError FieldSchema :=
  match kvDict (data.type_params.getD []) with
  | .error e => .error e
  | .ok tp =>
      .ok { field_id := data.fieldID.getD 0
            name := data.name.getD ""
            data_type := DataType.from_value (data.data_type.getD (.int 0))
            is_primary_key := data.is_primary_key.getD false
            auto_id := data.autoID.getD false
            is_partition_key := data.is_partition_key.getD false
            is_clustering_key := data.is_clustering_key.getD false
            is_dynamic := data.is_dynamic.getD false
            nullable := data.nullable.getD false
            type_params := tp }

/-- Wire record for the nested `"schema"` object of a collection record;
`data.get("schema", {})` yields the all-absent record. -/
structure SchemaWire where
  name : Option String := none
  version : Option Int := none
  fields : Option (List FieldSchemaWire) := none
  enable_dynamic_field : Option Bool := none
  deriving DecidableEq, Repr

/-- Wire record for `Collection.from_dict`. -/
structure CollectionWire where
  ID : Option Int := none
  db_id : Option Int := none
  state : Option String := none
  schema : Option SchemaWire := none
  consistency_level : Option String := none
  virtual_channel_names : Option (List String) := none
  physical_channel_names : Option (List String) := none
  properties : Option (List KVWire) := none
  deriving DecidableEq, Repr

/-- The `Collection` dataclass.  `create_time` (a `datetime` in Python,
modeled as an integer timestamp) is never set by `from_dict` and keeps
its `None` default. -/
structure Collection where
  id : Int
  name : String
  db_id : Int
  state : CollectionState
  schema_version : Int
  fields : List FieldSchema
  consistency_level : String
  virtual_channels : List String
  physical_channels : List String
  properties : List (String × String)
  create_time : Option Int := none
  enable_dynamic_field : Bool := false
  deriving DecidableEq, Repr

/-- `Collection.from_dict`: reads the nested schema with `{}` default,
maps `FieldSchema.from_dict` over the field list (evaluated before the
`properties` comprehension, matching Python argument order), and
defaults every other field via `data.get`. -/
def Collection.from_dict (data : CollectionWire) : Except PyError Collection :=
  let schema := data.schema.getD {}
  match (schema.fields.getD []).mapM FieldSchema.from_dict with
  | .error e => .error e
  | .ok fs =>
      match kvDict (data.properties.getD []) with
      | .error e => .error e
      | .ok props =>
          .ok { id := data.ID.getD 0
                name := schema.name.getD ""
                db_id := data.db_id.getD 0
                state := CollectionState.from_string (data.state.getD "")
                schema_version := schema.version.getD 0
                fields := fs
                consistency_level := data.consistency_level.getD ""
                virtual_channels := data.virtual_channel_names.getD []
                physical_channels := data.physical_channel_names.getD []
                properties := props
                create_time := none
                enable_dynamic_field := schema.enable_dynamic_field.getD false }

/-- Wire record for `Segment.from_dict`. -/
structure SegmentWire where
  ID : Option Int := none
  CollectionID : Option Int := none
  PartitionID : Option Int := none
  State : Option String := none
  Level : Option String := none
  NumOfRows : Option Int := none
  MaxRowNum : Option Int := none
  InsertChannel : Option String := none
  StorageVersion : Option Int := none
  IsSorted : Option Bool := none
  CompactionFrom : Option (List Int) := none
  deriving DecidableEq, Repr

/-- The `Segment` dataclass. -/
structure Segment where
  id : Int
  collection_id : Int
  partition_id : Int
  state : SegmentState
  level : SegmentLevel
  num_rows : Int
  max_rows : Int
  insert_channel : String
  storage_version : Int
  is_sorted : Bool
  compaction_from : List Int
  binlog_count : Int := 0
  statslog_count : Int := 0
  deltalog_count : Int := 0
  deriving DecidableEq, Repr

/-- `Segment.from_dict`: every field defaults via `data.get`; the three
log counts keep their dataclass defaults.  No subscripting occurs, so
this mapper is total. -/
def Segment.from_dict (data : SegmentWire) : Segment :=
  { id := data.ID.getD 0
    collection_id := data.CollectionID.getD 0
    partition_id := data.PartitionID.getD 0
    state := SegmentState.from_string (data.State.getD "")
    level := SegmentLevel.from_string (data.Level.getD "")
    num_rows := data.NumOfRows.getD 0
    max_rows := data.MaxRowNum.getD 0
    insert_channel := data.InsertChannel.getD ""
    storage_version := data.StorageVersion.getD 0
    is_sorted := data.IsSorted.getD false
    compaction_from := data.CompactionFrom.getD [] }

/-- `Segment.fill_ratio`: `0.0` when `max_rows == 0`, else
`num_rows / max_rows`.  Python float division is modeled by exact
rational division. -/
def Segment.fill_ratio (s : Segment) : ℚ :=
  if s.max_rows = 0 then 0 else (s.num_rows : ℚ) / (s.max_rows : ℚ)

/-- `Segment.is_small`: fill ratio strictly below `0.2`. -/
def Segment.is_small (s : Segment) : Prop :=
  s.fill_ratio < (2 : ℚ) / 10

instance (s : Segment) : Decidable s.is_small := by
  unfold Segment.is_small
  infer_instance

/-! ### Decoded JSON values and a model of `json.loads` (`client.py`)

The parser is an executable recursive-descent model of `json.loads`
restricted to the payload shapes the tool emits: null, booleans,
integers and plain decimals (no exponent forms), strings with the
standard escapes, arrays and objects.  Numbers are exact rationals. -/

inductive JValue where
  | null
  | bool (b : Bool)
  | num (q : ℚ)
  | str (s : String)
  | arr (elems : List JValue)
  | obj (entries : List (String × JValue))
  deriving Repr

/-- JSON structural whitespace. -/
def jsonWs (c : Char) : Bool :=
  c = ' ' || c = '\t' || c = '\n' || c = '\r'

/-- Skip leading JSON whitespace. -/
def skipWs (l : List Char) : List Char :=
  l.dropWhile jsonWs

/-- Hexadecimal digit value. -/
def hexVal (c : Char) : Option Nat :=
  if '0' ≤ c ∧ c ≤ '9' then some (c.toNat - 48)
  else if 'a' ≤ c ∧ c ≤ 'f' then some (c.toNat - 87)
  else if 'A' ≤ c ∧ c ≤ 'F' then some (c.toNat - 55)
  else none

/-- Parse the body of a JSON string literal (after the opening quote),
accumulating decoded characters in reverse. -/
def parseStrAux (acc : List Char) : List Char → Except String (String × List Char)
  | [] => .error "Unterminated string"
  | c :: rest =>
      if c = '"' then .ok (String.mk acc.reverse, rest)
      else if c = '\\' then
        match rest with
        | [] => .error "Unterminated string"
        | e :: rest2 =>
            if e = '"' then parseStrAux ('"' :: acc) rest2
            else if e = '\\' then parseStrAux ('\\' :: acc) rest2
            else if e = '/' then parseStrAux ('/' :: acc) rest2
            else if e = 'n' then parseStrAux ('\n' :: acc) rest2
            else if e = 't' then parseStrAux ('\t' :: acc) rest2
            else if e = 'r' then parseStrAux ('\r' :: acc) rest2
            else if e = 'b' then parseStrAux (Char.ofNat 8 :: acc) rest2
            else if e = 'f' then parseStrAux (Char.ofNat 12 :: acc) rest2
            else if e = 'u' then
              match rest2 with
              | h1 :: h2 :: h3 :: h4 :: rest3 =>
                  match hexVal h1, hexVal h2, hexVal h3, hexVal h4 with
                  | some a, some b, some c3, some d =>
                      parseStrAux (Char.ofNat (((a * 16 + b) * 16 + c3) * 16 + d) :: acc) rest3
                  | _, _, _, _ => .error "Invalid unicode escape"
              | _ => .error "Invalid unicode escape"
            else .error "Invalid escape"
      else parseStrAux (c :: acc) rest
termination_by l => l.length
decreasing_by all_goals simp_wf <;> omega

/-- Decimal digit run to a natural number. -/
def digitsToNat (ds : List Char) : Nat :=
  ds.foldl (fun n c => n * 10 + (c.toNat - 48)) 0

/-- Parse a JSON number (integer or plain decimal). -/
def parseNumber (l : List Char) : Except String (ℚ × List Char) :=
  let neg := l.head? = some '-'
  let l1 := if neg then l.tail else l
  let intDigits := l1.takeWhile Char.isDigit
  let l2 := l1.dropWhile Char.isDigit
  if intDigits.isEmpty then .error "Expecting value"
  else
    match l2 with
    | '.' :: l3 =>
        let fracDigits := l3.takeWhile Char.isDigit
        let l4 := l3.dropWhile Char.isDigit
        if fracDigits.isEmpty then .error "Expecting digit after decimal point"
        else
          let mag : ℚ :=
            (digitsToNat intDigits : ℚ) +
              (digitsToNat fracDigits : ℚ) / ((10 : ℚ) ^ fracDigits.length)
          .ok (if neg then -mag else mag, l4)
    | _ => .ok (if neg then -(digitsToNat intDigits : ℚ) else (digitsToNat intDigits : ℚ), l2)

mutual

/-- Parse one JSON value from the front of the input. -/
def parseVal : Nat → List Char → Except String (JValue × List Char)
  | 0, _ => .error "Nesting exceeded"
  | fuel + 1, l =>
      match skipWs l with
      | 'n' :: 'u' :: 'l' :: 'l' :: r => .ok (.null, r)
      | 't' :: 'r' :: 'u' :: 'e' :: r => .ok (.bool true, r)
      | 'f' :: 'a' :: 'l' :: 's' :: 'e' :: r => .ok (.bool false, r)
      | '"' :: r =>
          match parseStrAux [] r with
          | .error e => .error e
          | .ok (s, r2) => .ok (.str s, r2)
      | '[' :: r =>
          match skipWs r with
          | ']' :: r2 => .ok (.arr [], r2)
          | l2 => parseArrItems fuel l2 []
      | '{' :: r =>
          match skipWs r with
          | '}' :: r2 => .ok (.obj [], r2)
          | l2 => parseObjItems fuel l2 []
      | l1 =>
          match parseNumber l1 with
          | .error e => .error e
          | .ok (q, r) => .ok (.num q, r)

/-- Parse the elements of a non-empty JSON array, positioned at a value. -/
def parseArrItems : Nat → List Char → List JValue → Except String (JValue × List Char)
  | 0, _, _ => .error "Nesting exceeded"
  | fuel + 1, l, acc =>
      match parseVal fuel l with
      | .error e => .error e
      | .ok (v, r) =>
          match skipWs r with
          | ',' :: r2 => parseArrItems fuel r2 (v :: acc)
          | ']' :: r2 => .ok (.arr (v :: acc).reverse, r2)
          | _ => .error "Expecting comma delimiter"

/-- Parse the entries of a non-empty JSON object, positioned at a key. -/
def parseObjItems : Nat → List Char → List (String × JValue) →
    Except String (JValue × List Char)
  | 0, _, _ => .error "Nesting exceeded"
  | fuel + 1, l, acc =>
      match skipWs l with
      | '"' :: r =>
          match parseStrAux [] r with
          | .error e => .error e
          | .ok (k, r2) =>
              match skipWs r2 with
              | ':' :: r3 =>
                  match parseVal fuel r3 with
                  | .error e => .error e
                  | .ok (v, r4) =>
                      match skipWs r4 with
                      | ',' :: r5 => parseObjItems fuel r5 ((k, v) :: acc)
                      | '}' :: r5 => .ok (.obj ((k, v) :: acc).reverse, r5)
                      | _ => .error "Expecting comma delimiter"
              | _ => .error "Expecting colon delimiter"
      | _ => .error "Expecting property name"

end

/-- The model of `json.loads`: parse one value, then require only
whitespace to remain. -/
def parseJson (s : String) : Except String JValue :=
  match parseVal (2 * s.length + 4) s.toList with
  | .error e => .error e
  | .ok (v, rest) => if (skipWs rest).isEmpty then .ok v else .error "Extra data"

/-! ### Errors and the payload extractor (`client.py`) -/

/-- The exception taxonomy of `client.py`: `BirdwatcherError` and its
subclass `ConnectionError`, each carrying its message text. -/
inductive BwError where
  | birdwatcherError (msg : String)
  | connectionError (msg : String)
  deriving DecidableEq, Repr

/-- A character opening a structured-data token: the scan `char in "[{"`. -/
def jsonOpen (c : Char) : Bool :=
  c = '[' || c = '{'

/-- Python `str` whitespace for `strip()`. -/
def pySpace (c : Char) : Bool :=
  c = ' ' || c = '\t' || c = '\n' || c = '\r' || c = Char.ofNat 11 || c = Char.ofNat 12

/-- Python `str.strip()`: remove leading and trailing whitespace. -/
def pyStrip (s : String) : String :=
  String.mk (((s.toList.dropWhile pySpace).reverse.dropWhile pySpace).reverse)

/-- The payload extraction of `Birdwatcher._run_json` applied to the raw
output text: empty (after strip) output or output with no opening token
yields an empty list; otherwise the text from the first opening token
onward is decoded, and a decode failure raises `BirdwatcherError` with
the decode error and the full original output. -/
def extractPayload (output : String) : Except BwError JValue :=
  if pyStrip output = "" then .ok (.arr [])
  else
    match output.toList.findIdx? jsonOpen with
    | none => .ok (.arr [])
    | some i =>
        match parseJson (String.mk (output.toList.drop i)) with
        | .ok v => .ok v
        | .error e =>
            .error (.birdwatcherError
              ("Failed to parse JSON: " ++ e ++ "\nOutput: " ++ output))

/-- `result.stderr or result.stdout`: the diagnostic text of a failed
command, falling back to stdout when stderr is empty (falsy). -/
def errorDiagnostic (stderr stdout : String) : String :=
  if stderr = "" then stdout else stderr

/-- Python `str.lower` restricted to ASCII, as `Char.toLower`. -/
def pyLower (s : String) : String :=
  String.mk (s.toList.map Char.toLower)

/-- Substring containment on character lists (Python `in`). -/
def containsSub (p : List Char) : List Char → Bool
  | [] => p.isPrefixOf []
  | c :: t => p.isPrefixOf (c :: t) || containsSub p t

/-- Python `needle in hay` on strings. -/
def pyIn (needle hay : String) : Bool :=
  containsSub needle.toList hay.toList

/-- The nonzero-exit classification of `Birdwatcher._run_command`:
diagnostic text containing `"failed to connect"` case-insensitively
raises `ConnectionError`, anything else `BirdwatcherError`, both
carrying the raw diagnostic text. -/
def classifyFailure (stderr stdout : String) : BwError :=
  if pyIn "failed to connect" (pyLower (errorDiagnostic stderr stdout)) then
    .connectionError ("Failed to connect to etcd: " ++ errorDiagnostic stderr stdout)
  else
    .birdwatcherError ("Command failed: " ++ errorDiagnostic stderr stdout)

/-! ### Connection context and command composition (`client.py`) -/

/-- The connection context held by a `Birdwatcher` instance and mutated
only by `_connect`. -/
structure ConnContext where
  etcd_addr : Option String := none
  root_path : Option String := none
  auto_detect : Bool := false
  deriving DecidableEq, Repr

/-- Python truthiness of an `Optional[str]`: `None` and `""` are falsy. -/
def truthyStr : Option String → Bool
  | none => false
  | some s => !(s == "")

/-- Python truthiness of an `Optional[int]`: `None` and `0` are falsy. -/
def truthyInt : Option Int → Bool
  | none => false
  | some n => !(n == 0)

/-- Python `command.startswith(prefix)`. -/
def pyStartsWith (s pre : String) : Bool :=
  pre.toList.isPrefixOf s.toList

/-- Decimal rendering of a natural number (Python `str`). -/
def natDigitsAux : Nat → Nat → List Char
  | 0, _ => []
  | fuel + 1, n =>
      if n < 10 then [Nat.digitChar n]
      else natDigitsAux fuel (n / 10) ++ [Nat.digitChar (n % 10)]

/-- Python `f"{n}"` for a natural number. -/
def pyStrNat (n : Nat) : String :=
  String.mk (natDigitsAux (n + 1) n)

/-- Python `f"{n}"` for an integer. -/
def pyStrInt : Int → String
  | .ofNat n => pyStrNat n
  | .negSucc n => "-" ++ pyStrNat (n + 1)

/-- The connection sub-command built by `_run_command`:
`connect --etcd {addr}`, plus ` --rootPath {root}` when the root path is
truthy, plus ` --auto` when auto-detect is enabled. -/
def connectCommand (ctx : ConnContext) : String :=
  "connect --etcd " ++ ctx.etcd_addr.getD "" ++
    (if truthyStr ctx.root_path then " --rootPath " ++ ctx.root_path.getD "" else "") ++
    (if ctx.auto_detect then " --auto" else "")

/-- The command composition of `_run_command`: when the stored address is
truthy and the requested command does not itself start with `connect`,
the connection sub-command is prepended with the `", "` multi-statement
separator; otherwise the command is passed through unchanged. -/
def composeFull (ctx : ConnContext) (command : String) : String :=
  if truthyStr ctx.etcd_addr && !(pyStartsWith command "connect") then
    connectCommand ctx ++ ", " ++ command
  else command

/-- `_run_json` requests JSON output by appending ` --format json`. -/
def jsonCommand (command : String) : String :=
  command ++ " --format json"

/-! ### Per-operation command builders (`client.py`) -/

/-- The `state` argument of `list_segments`: `Union[str, SegmentState]`.
A string is falsy when empty; an enum member is always truthy. -/
inductive SegStateArg where
  | str (s : String)
  | enum (e : SegmentState)
  deriving DecidableEq, Repr

def SegStateArg.truthy : SegStateArg → Bool
  | .str s => !(s == "")
  | .enum _ => true

/-- `state.name if isinstance(state, SegmentState) else state`. -/
def SegStateArg.text : SegStateArg → String
  | .str s => s
  | .enum e => e.pyName

/-- The `level` argument of `list_segments`: `Union[str, SegmentLevel]`. -/
inductive SegLevelArg where
  | str (s : String)
  | enum (e : SegmentLevel)
  deriving DecidableEq, Repr

def SegLevelArg.truthy : SegLevelArg → Bool
  | .str s => !(s == "")
  | .enum _ => true

/-- `level.name if isinstance(level, SegmentLevel) else level`. -/
def SegLevelArg.text : SegLevelArg → String
  | .str s => s
  | .enum e => e.pyName

/-- `list_collections`: note the `db_id` presence check is
`if db_id is not None` while the `state` check is truthiness. -/
def listCollectionsCmd (db_id : Option Int) (state : Option String) : String :=
  "show collections" ++
    (match db_id with
     | some n => " --dbid " ++ pyStrInt n
     | none => "") ++
    (if truthyStr state then " --state " ++ state.getD "" else "")

/-- `get_collection`: both presence checks are truthiness
(`if collection_id:` and `if name:`). -/
def getCollectionCmd (collection_id : Option Int) (name : Option String) : String :=
  "show collections" ++
    (if truthyInt collection_id then " --id " ++ pyStrInt (collection_id.getD 0) else "") ++
    (if truthyStr name then " --name " ++ name.getD "" else "")

/-- `list_segments`: all four presence checks are truthiness. -/
def listSegmentsCmd (collection_id partition_id : Option Int)
    (state : Option SegStateArg) (level : Option SegLevelArg) : String :=
  "show segment" ++
    (if truthyInt collection_id then " --collection " ++ pyStrInt (collection_id.getD 0) else "") ++
    (if truthyInt partition_id then " --partition " ++ pyStrInt (partition_id.getD 0) else "") ++
    (match state with
     | some a => if a.truthy then " --state " ++ a.text else ""
     | none => "") ++
    (match level with
     | some a => if a.truthy then " --level " ++ a.text else ""
     | none => "")

def getSegmentCmd (segment_id : Int) : String :=
  "show segment --segment " ++ pyStrInt segment_id

def listPartitionsCmd (collection_id : Int) : String :=
  "show partition --collection " ++ pyStrInt collection_id

def listIndexesCmd (collection_id : Option Int) : String :=
  "show index" ++
    (if truthyInt collection_id then " --collection " ++ pyStrInt (collection_id.getD 0) else "")

def listReplicasCmd (collection_id : Option Int) : String :=
  "show replica" ++
    (if truthyInt collection_id then " --collection " ++ pyStrInt (collection_id.getD 0) else "")

def listCheckpointsCmd (collection_id : Int) : String :=
  "show checkpoint --collection " ++ pyStrInt collection_id

/-- The logical operations of the client, with their filter parameters. -/
inductive Op where
  | listSessions
  | listCollections (db_id : Option Int) (state : Option String)
  | getCollection (collection_id : Option Int) (name : Option String)
  | listSegments (collection_id partition_id : Option Int)
      (state : Option SegStateArg) (level : Option SegLevelArg)
  | getSegment (segment_id : Int)
  | listDatabases
  | listPartitions (collection_id : Int)
  | listIndexes (collection_id : Option Int)
  | listReplicas (collection_id : Option Int)
  | listCheckpoints (collection_id : Int)
  | healthz
  | version

/-- The command string each operation passes to `_run_command` (JSON
operations go through `_run_json` and carry the format suffix;
`version` is a raw text command). -/
def Op.command : Op → String
  | .listSessions => jsonCommand "show session"
  | .listCollections d s => jsonCommand (listCollectionsCmd d s)
  | .getCollection c n => jsonCommand (getCollectionCmd c n)
  | .listSegments c p s l => jsonCommand (listSegmentsCmd c p s l)
  | .getSegment s => jsonCommand (getSegmentCmd s)
  | .listDatabases => jsonCommand "show database"
  | .listPartitions c => jsonCommand (listPartitionsCmd c)
  | .listIndexes c => jsonCommand (listIndexesCmd c)
  | .listReplicas c => jsonCommand (listReplicasCmd c)
  | .listCheckpoints c => jsonCommand (listCheckpointsCmd c)
  | .healthz => jsonCommand "healthz"
  | .version => "version"

/-! ### Occurrence counting for the connection-prefix property -/

/-- Number of (possibly overlapping) occurrences of `p` in a character
list: one per position where `p` is a prefix of the remaining suffix. -/
def countOcc (p : List Char) : List Char → Nat
  | [] => 0
  | c :: t => (if p.isPrefixOf (c :: t) then 1 else 0) + countOcc p t

/-- Occurrence count on strings. -/
def countOccS (p s : String) : Nat :=
  countOcc p.toList s.toList

/-- A string in which the `connect` keyword never occurs. -/
def connectFree (s : String) : Prop :=
  countOccS "connect" s = 0

instance (s : String) : Decidable (connectFree s) := by
  unfold connectFree
  infer_instance

/-- The filter parameters of an operation contain no occurrence of the
`connect` keyword (integer parameters render to digits and need no
side condition). -/
def Op.paramsConnectFree : Op → Prop
  | .listCollections _ state => connectFree (state.getD "")
  | .getCollection _ name => connectFree (name.getD "")
  | .listSegments _ _ state level =>
      (match state with
       | some (.str s) => connectFree s
       | _ => True) ∧
      (match level with
       | some (.str s) => connectFree s
       | _ => True)
  | _ => True

/-! ### Traced client operations and derived statistics (`client.py`)

Subprocess execution and payload decoding are abstracted into a listing
oracle mapping the composed command string to the decoded wire records;
each traced operation also returns the list of commands it issued, so
single-invocation properties are statable. -/

/-- `list_segments`: compose the command, run it once, map
`Segment.from_dict` over the decoded records in order. -/
def listSegmentsRun (ctx : ConnContext) (oracle : String → List SegmentWire)
    (collection_id partition_id : Option Int) (state : Option SegStateArg)
    (level : Option SegLevelArg) : List Segment × List String :=
  let full := composeFull ctx (jsonCommand (listSegmentsCmd collection_id partition_id state level))
  ((oracle full).map Segment.from_dict, [full])

/-- `get_collection`: compose the command, run it once, and return the
first mapped record, or `None` when the listing is empty. -/
def getCollectionRun (ctx : ConnContext) (oracle : String → List CollectionWire)
    (collection_id : Option Int) (name : Option String) :
    Except PyError (Option Collection) × List String :=
  let full := composeFull ctx (jsonCommand (getCollectionCmd collection_id name))
  (match oracle full with
   | [] => .ok none
   | d :: _ => (Collection.from_dict d).map some,
   [full])

/-- The statistics record built by `get_segment_stats`. -/
structure SegmentStats where
  total : Nat
  by_state : List (String × Nat)
  by_level : List (String × Nat)
  total_rows : Int
  healthy_segments : Nat
  small_segments : Nat
  deriving DecidableEq, Repr

/-- `d[k] = d.get(k, 0) + 1` on a Python dict. -/
def dictIncr (d : List (String × Nat)) (k : String) : List (String × Nat) :=
  pyDictSet d k ((d.lookup k).getD 0 + 1)

/-- One iteration of the `get_segment_stats` loop. -/
def statsStep (st : SegmentStats) (seg : Segment) : SegmentStats :=
  let st1 := { st with by_state := dictIncr st.by_state seg.state.pyName }
  let st2 := { st1 with by_level := dictIncr st1.by_level seg.level.pyName }
  let st3 :=
    if seg.state ≠ SegmentState.DROPPED then
      { st2 with total_rows := st2.total_rows + seg.num_rows,
                 healthy_segments := st2.healthy_segments + 1 }
    else st2
  if seg.state = SegmentState.FLUSHED ∧ seg.is_small then
    { st3 with small_segments := st3.small_segments + 1 }
  else st3

/-- The fold of `get_segment_stats` over the mapped segments: `total` is
set up front, the loop fills the rest. -/
def segmentStats (segments : List Segment) : SegmentStats :=
  segments.foldl statsStep
    { total := segments.length, by_state := [], by_level := [],
      total_rows := 0, healthy_segments := 0, small_segments := 0 }

/-- `get_segment_stats`: one `list_segments` call, then the fold. -/
def getSegmentStatsRun (ctx : ConnContext) (oracle : String → List SegmentWire)
    (collection_id : Option Int) : SegmentStats × List String :=
  let r := listSegmentsRun ctx oracle collection_id none none none
  (segmentStats r.1, r.2)

/-! ## Theorems -/

/-! ### Generic lemmas about association-list lookup -/

theorem lookup_getD_of_not_mem_keys {β : Type} (t : List (String × β)) (d : β)
    (s : String) (h : s ∉ t.map (·.1)) : ((t.lookup s).getD d) = d := by
  induction t with
  | nil => rfl
  | cons p t ih =>
    simp only [List.map_cons, List.mem_cons, not_or] at h
    rw [List.lookup_cons]
    have : (s == p.1) = false := by
      simp only [beq_eq_false_iff_ne, ne_eq]
      exact h.1
    rw [this]
    exact ih h.2

theorem find?_getD_of_forall_ne {β : Type} (l : List β) (p : β → Bool) (d : β)
    (h : ∀ x ∈ l, p x = false) : ((l.find? p).getD d) = d := by
  rw [List.find?_eq_none.mpr ?_]
  · rfl
  · intro x hx
    simp [h x hx]

/-! ### Claim C1: total wire-to-member enum conversion -/

/-- C1: for every enumeration, wire-to-member conversion is total and
never raises: any unrecognized string (and, for `DataType`, any
unrecognized integer, unrecognized normalized string, or
non-string/non-int value) maps to the designated default member
(`SEGMENT_STATE_NONE`, `LEGACY`, `COLLECTION_CREATED`, `NONE`
respectively), while every recognized wire value maps to its expected
member: in particular `"Flushed"` to `FLUSHED`, `"L0"` to `L0` and the
integer `101` to `FLOAT_VECTOR`. -/
theorem enum_wire_conversion_total :
    (∀ s : String, s ∉ SegmentState.wireKeys →
      SegmentState.from_string s = .SEGMENT_STATE_NONE) ∧
    (∀ p ∈ SegmentState.wireTable, SegmentState.from_string p.1 = p.2) ∧
    (∀ s : String, s ∉ SegmentLevel.wireKeys →
      SegmentLevel.from_string s = .LEGACY) ∧
    (∀ p ∈ SegmentLevel.wireTable, SegmentLevel.from_string p.1 = p.2) ∧
    (∀ s : String, s ∉ CollectionState.wireKeys →
      CollectionState.from_string s = .COLLECTION_CREATED) ∧
    (∀ p ∈ CollectionState.wireTable, CollectionState.from_string p.1 = p.2) ∧
    (∀ n : Int, n ∉ DataType.memberValues → DataType.from_value (.int n) = .NONE) ∧
    (∀ m ∈ DataType.members, DataType.from_value (.int m.value) = m) ∧
    (∀ s : String, pyReplaceSpaceUnderscore (pyUpper s) ∉ DataType.memberNames →
      DataType.from_value (.str s) = .NONE) ∧
    DataType.from_value .other = .NONE ∧
    SegmentState.from_string "Flushed" = .FLUSHED ∧
    SegmentLevel.from_string "L0" = .L0 ∧
    DataType.from_value (.int 101) = .FLOAT_VECTOR := by
  refine ⟨?_, by decide, ?_, by decide, ?_, by decide, ?_, by decide, ?_,
    by decide, by decide, by decide, by decide⟩
  · intro s h
    exact lookup_getD_of_not_mem_keys _ _ _ h
  · intro s h
    exact lookup_getD_of_not_mem_keys _ _ _ h
  · intro s h
    exact lookup_getD_of_not_mem_keys _ _ _ h
  · intro n h
    unfold DataType.from_value
    refine find?_getD_of_forall_ne _ _ _ ?_
    intro m hm
    simp only [beq_eq_false_iff_ne, ne_eq]
    intro e
    exact h (e ▸ List.mem_map_of_mem DataType.value hm)
  · intro s h
    unfold DataType.from_value
    refine lookup_getD_of_not_mem_keys _ _ _ ?_
    intro hmem
    apply h
    have : (DataType.membersTable.map (·.1)) = DataType.memberNames := by decide
    rw [this] at hmem
    exact hmem

/-- Witness for C1: concrete unrecognized wire values degrade to each
enumeration's default member. -/
theorem enum_wire_conversion_total_witness :
    SegmentState.from_string "Bogus" = .SEGMENT_STATE_NONE ∧
    SegmentLevel.from_string "L9" = .LEGACY ∧
    CollectionState.from_string "Nothing" = .COLLECTION_CREATED ∧
    DataType.from_value (.int 999) = .NONE ∧
    DataType.from_value (.str "not a type") = .NONE :=
  ⟨enum_wire_conversion_total.1 "Bogus" (by decide),
   enum_wire_conversion_total.2.2.1 "L9" (by decide),
   enum_wire_conversion_total.2.2.2.2.1 "Nothing" (by decide),
   enum_wire_conversion_total.2.2.2.2.2.2.1 999 (by decide),
   enum_wire_conversion_total.2.2.2.2.2.2.2.2.1 "not a type" (by decide)⟩

/-! ### Claim C8: segment fill ratio and the small-segment predicate -/

/-- C8: the fill ratio equals `num_rows / max_rows` except that it is
exactly `0` when `max_rows` is `0` (guarded, not an error); the is-small
predicate holds exactly when the fill ratio is strictly below `0.2`, so
a segment with capacity 100 and 19 rows is small while one with
capacity 100 and 20 rows is not. -/
theorem segment_fill_ratio_spec :
    (∀ s : Segment, s.max_rows = 0 → s.fill_ratio = 0) ∧
    (∀ s : Segment, s.max_rows ≠ 0 →
      s.fill_ratio = (s.num_rows : ℚ) / (s.max_rows : ℚ)) ∧
    (∀ s : Segment, s.is_small ↔ s.fill_ratio < (2 : ℚ) / 10) ∧
    (∀ s : Segment, s.max_rows = 100 → s.num_rows = 19 → s.is_small) ∧
    (∀ s : Segment, s.max_rows = 100 → s.num_rows = 20 → ¬ s.is_small) := by
  refine ⟨?_, ?_, fun _ => Iff.rfl, ?_, ?_⟩
  · intro s h
    simp [Segment.fill_ratio, h]
  · intro s h
    simp [Segment.fill_ratio, h]
  · intro s h1 h2
    simp only [Segment.is_small, Segment.fill_ratio, h1, h2]
    norm_num
  · intro s h1 h2
    simp only [Segment.is_small, Segment.fill_ratio, h1, h2]
    norm_num

/-- Witness for C8: the 19-of-100 segment is small, the 20-of-100
segment is not, and a zero-capacity segment has fill ratio `0`. -/
theorem segment_fill_ratio_spec_witness :
    ({ id := 1, collection_id := 1, partition_id := 1, state := .FLUSHED,
       level := .L1, num_rows := 19, max_rows := 100, insert_channel := "",
       storage_version := 0, is_sorted := false, compaction_from := [] } :
        Segment).is_small ∧
    ¬ ({ id := 2, collection_id := 1, partition_id := 1, state := .FLUSHED,
         level := .L1, num_rows := 20, max_rows := 100, insert_channel := "",
         storage_version := 0, is_sorted := false, compaction_from := [] } :
          Segment).is_small ∧
    ({ id := 3, collection_id := 1, partition_id := 1, state := .GROWING,
       level := .L1, num_rows := 7, max_rows := 0, insert_channel := "",
       storage_version := 0, is_sorted := false, compaction_from := [] } :
        Segment).fill_ratio = 0 :=
  ⟨segment_fill_ratio_spec.2.2.2.1 _ rfl rfl,
   segment_fill_ratio_spec.2.2.2.2 _ rfl rfl,
   segment_fill_ratio_spec.1 _ rfl⟩

/-! ### Claim C2: mapper totality on records with missing fields -/

theorem kvDict_ok_of_complete (items : List KVWire)
    (h : ∀ kv ∈ items, kv.complete) : ∃ ps, kvDict items = .ok ps := by
  suffices hp : ∃ ps, kvPairs items = .ok ps by
    obtain ⟨ps, hps⟩ := hp
    refine ⟨ps.foldl (fun d p => pyDictSet d p.1 p.2) [], ?_⟩
    unfold kvDict
    rw [hps]
    rfl
  induction items with
  | nil => exact ⟨[], rfl⟩
  | cons kv rest ih =>
    have hkv := h kv (List.mem_cons_self kv rest)
    obtain ⟨hk, hv⟩ := hkv
    obtain ⟨k, hk⟩ := Option.isSome_iff_exists.mp hk
    obtain ⟨v, hv⟩ := Option.isSome_iff_exists.mp hv
    obtain ⟨ps, hps⟩ := ih fun x hx => h x (List.mem_cons_of_mem kv hx)
    exact ⟨(k, v) :: ps, by simp [kvPairs, hk, hv, hps]⟩

theorem fieldSchema_from_dict_ok (w : FieldSchemaWire)
    (h : ∀ kv ∈ w.type_params.getD [], kv.complete) :
    ∃ e, FieldSchema.from_dict w = .ok e := by
  obtain ⟨ps, hps⟩ := kvDict_ok_of_complete _ h
  unfold FieldSchema.from_dict
  rw [hps]
  exact ⟨_, rfl⟩

theorem mapM_fieldSchema_ok (fs : List FieldSchemaWire)
    (h : ∀ f ∈ fs, ∀ kv ∈ f.type_params.getD [], kv.complete) :
    ∃ l, fs.mapM FieldSchema.from_dict = .ok l := by
  induction fs with
  | nil => exact ⟨[], rfl⟩
  | cons f rest ih =>
    obtain ⟨e, he⟩ := fieldSchema_from_dict_ok f (h f (List.mem_cons_self f rest))
    obtain ⟨l, hl⟩ := ih fun x hx => h x (List.mem_cons_of_mem f hx)
    refine ⟨e :: l, ?_⟩
    rw [List.mapM_cons, he, hl]
    rfl

/-- C2 (as stated) is falsified by a record whose `type_params` list
contains an item with a missing `"key"` field: the comprehension
subscript `kv["key"]` raises `KeyError`, so the mapper is not total on
records with missing wire fields. -/
theorem mapper_missing_subfield_raises :
    FieldSchema.from_dict
      { type_params := some [{ key := none, value := some "128" }] } =
      .error (.keyError "key") := by
  rfl

/-- C2 amended: the per-entity mappers are total on records whose
top-level fields may be missing (every such field has a defined
default), provided each item of a key/value-pair list (`type_params`,
`properties`) carries both its `"key"` and `"value"` subfields; the
all-absent record maps to the fully-defaulted entity. -/
theorem mapper_defaults_total :
    (∀ w : FieldSchemaWire, (∀ kv ∈ w.type_params.getD [], kv.complete) →
      ∃ e, FieldSchema.from_dict w = .ok e) ∧
    (∀ w : CollectionWire,
      (∀ kv ∈ w.properties.getD [], kv.complete) →
      (∀ f ∈ (w.schema.getD {}).fields.getD [],
        ∀ kv ∈ f.type_params.getD [], kv.complete) →
      ∃ e, Collection.from_dict w = .ok e) ∧
    FieldSchema.from_dict {} = .ok { field_id := 0, name := "", data_type := .NONE } ∧
    Collection.from_dict {} =
      .ok { id := 0, name := "", db_id := 0, state := .COLLECTION_CREATED,
            schema_version := 0, fields := [], consistency_level := "",
            virtual_channels := [], physical_channels := [], properties := [] } ∧
    Segment.from_dict {} =
      { id := 0, collection_id := 0, partition_id := 0,
        state := .SEGMENT_STATE_NONE, level := .LEGACY, num_rows := 0,
        max_rows := 0, insert_channel := "", storage_version := 0,
        is_sorted := false, compaction_from := [] } := by
  refine ⟨fieldSchema_from_dict_ok, ?_, rfl, rfl, rfl⟩
  intro w hprops hfields
  obtain ⟨l, hl⟩ := mapM_fieldSchema_ok _ hfields
  obtain ⟨ps, hps⟩ := kvDict_ok_of_complete _ hprops
  unfold Collection.from_dict
  dsimp only
  rw [hl, hps]
  exact ⟨_, rfl⟩

/-- Witness for C2 (amended): concrete wire records with complete
key/value items map successfully. -/
theorem mapper_defaults_total_witness :
    (∃ e, FieldSchema.from_dict
      { name := some "vec",
        type_params := some [{ key := some "dim", value := some "128" }] } =
      .ok e) ∧
    (∃ e, Collection.from_dict
      { ID := some 5,
        properties := some [{ key := some "ttl", value := some "0" }] } =
      .ok e) :=
  ⟨mapper_defaults_total.1 _ (by decide),
   mapper_defaults_total.2.1 _ (by decide) (by decide)⟩

/-! ### Claim C7: nonzero-exit failure classification -/

/-- C7: for every nonzero-exit execution, the diagnostic text (stderr,
falling back to stdout when stderr is empty) is classified by a
case-insensitive substring match on `"failed to connect"`: a match
yields `ConnectionError`, anything else `BirdwatcherError`, both
carrying the raw diagnostic text. -/
theorem failure_classification (stderr stdout : String) :
    (pyIn "failed to connect" (pyLower (errorDiagnostic stderr stdout)) = true →
      classifyFailure stderr stdout =
        .connectionError ("Failed to connect to etcd: " ++ errorDiagnostic stderr stdout)) ∧
    (pyIn "failed to connect" (pyLower (errorDiagnostic stderr stdout)) = false →
      classifyFailure stderr stdout =
        .birdwatcherError ("Command failed: " ++ errorDiagnostic stderr stdout)) ∧
    (stderr ≠ "" → errorDiagnostic stderr stdout = stderr) ∧
    (stderr = "" → errorDiagnostic stderr stdout = stdout) := by
  refine ⟨?_, ?_, ?_, ?_⟩
  · intro h
    simp [classifyFailure, h]
  · intro h
    simp [classifyFailure, h]
  · intro h
    simp [errorDiagnostic, h]
  · intro h
    simp [errorDiagnostic, h]

/-- Witness for C7: a mixed-case connection diagnostic on stdout is a
connection failure; another diagnostic on stderr is a command failure. -/
theorem failure_classification_witness :
    classifyFailure "" "FAILED to Connect: peer down" =
      .connectionError ("Failed to connect to etcd: " ++
        errorDiagnostic "" "FAILED to Connect: peer down") ∧
    classifyFailure "etcd exploded" "" =
      .birdwatcherError ("Command failed: " ++ errorDiagnostic "etcd exploded" "") :=
  ⟨(failure_classification "" "FAILED to Connect: peer down").1 (by decide),
   (failure_classification "etcd exploded" "").2.1 (by decide)⟩

/-! ### String-scan helper lemmas for the payload extractor -/

theorem toList_append (a b : String) : (a ++ b).toList = a.toList ++ b.toList :=
  String.data_append a b

theorem mk_toList (s : String) : String.mk s.toList = s := rfl

theorem pyStrip_eq_empty_all_space (s : String) (h : pyStrip s = "") :
    ∀ c ∈ s.toList, pySpace c = true := by
  unfold pyStrip at h
  have h0 : (((s.toList.dropWhile pySpace).reverse.dropWhile pySpace).reverse) = [] := by
    have := congrArg String.toList h
    simpa using this
  rw [List.reverse_eq_nil_iff, List.dropWhile_eq_nil_iff] at h0
  have h1 : ∀ c ∈ s.toList.dropWhile pySpace, pySpace c = true := by
    intro c hc
    exact h0 c (List.mem_reverse.mpr hc)
  intro c hc
  rw [← List.takeWhile_append_dropWhile (p := pySpace) (l := s.toList)] at hc
  rcases List.mem_append.mp hc with h2 | h2
  · exact List.mem_takeWhile_imp h2
  · exact h1 c h2

theorem jsonOpen_not_space (c : Char) (h : jsonOpen c = true) : pySpace c = false := by
  unfold jsonOpen at h
  rcases Bool.or_eq_true_iff.mp h with h1 | h1 <;>
    rw [decide_eq_true_iff.mp h1] <;> rfl

/-! ### Claim C4: no opening token means an empty list, never an error -/

/-- C4: for every raw output string that contains no array-open or
object-open character, the payload extractor returns an empty list and
never raises. -/
theorem extractor_no_opener_empty (output : String)
    (h : ∀ c ∈ output.toList, jsonOpen c = false) :
    extractPayload output = .ok (.arr []) := by
  unfold extractPayload
  by_cases hs : pyStrip output = ""
  · simp [hs]
  · rw [if_neg hs, List.findIdx?_eq_none_iff.mpr h]

/-- Witness for C4: a plain banner line extracts to the empty list. -/
theorem extractor_no_opener_empty_witness :
    extractPayload "Using default config. no rows!" = .ok (.arr []) :=
  extractor_no_opener_empty "Using default config. no rows!" (by decide)

/-! ### Claim C5: a non-structural noise prefix is discarded -/

/-- C5: for every raw output of the form noise-then-token, where the
noise prefix contains no opening character and the token starts with an
opening character and decodes successfully, the extractor's decoded
value equals the direct decode of the token alone. -/
theorem extractor_discards_noise (noise token : String) (c : Char) (v : JValue)
    (hn : ∀ x ∈ noise.toList, jsonOpen x = false)
    (hc : token.toList.head? = some c) (hoc : jsonOpen c = true)
    (hp : parseJson token = .ok v) :
    extractPayload (noise ++ token) = .ok v := by
  obtain ⟨t, htk⟩ : ∃ t, token.toList = c :: t := by
    cases htl : token.toList with
    | nil => rw [htl] at hc; exact absurd hc (by simp)
    | cons a t =>
      rw [htl] at hc
      simp only [List.head?_cons, Option.some.injEq] at hc
      exact ⟨t, by rw [hc]⟩
  have htl : (noise ++ token).toList = noise.toList ++ token.toList :=
    toList_append noise token
  have hne : ¬ pyStrip (noise ++ token) = "" := by
    intro he
    have hall := pyStrip_eq_empty_all_space _ he c
      (by rw [htl, htk]; exact List.mem_append_right _ (List.mem_cons_self c t))
    rw [jsonOpen_not_space c hoc] at hall
    exact Bool.false_ne_true hall
  unfold extractPayload
  rw [if_neg hne, htl, htk, List.findIdx?_append, List.findIdx?_eq_none_iff.mpr hn,
    List.findIdx?_cons, if_pos hoc]
  simp only [Option.none_or, Option.map_some', Nat.zero_add]
  rw [List.drop_left]
  rw [← htk, mk_toList, hp]

/-- Witness for C5: a banner line followed by a JSON array decodes to
the array alone. -/
theorem extractor_discards_noise_witness :
    extractPayload ("Connected to etcd.\n" ++ "[1, 2]") =
      .ok (.arr [.num 1, .num 2]) :=
  extractor_discards_noise "Connected to etcd.\n" "[1, 2]" '[' (.arr [.num 1, .num 2])
    (by decide) rfl rfl rfl

/-! ### Claim C6: malformed payload raises a diagnosable error -/

/-- C6: for every raw output that contains an opening character but
whose text from the first opening character onward fails to decode, the
extractor raises `BirdwatcherError` whose message carries both the
underlying decode error and the full original output. -/
theorem extractor_malformed_raises (output : String) (i : Nat) (e : String)
    (hf : output.toList.findIdx? jsonOpen = some i)
    (hp : parseJson (String.mk (output.toList.drop i)) = .error e) :
    extractPayload output =
      .error (.birdwatcherError ("Failed to parse JSON: " ++ e ++ "\nOutput: " ++ output)) := by
  have hne : ¬ pyStrip output = "" := by
    intro he
    obtain ⟨hlt, hopen, -⟩ := List.findIdx?_eq_some_iff_getElem.mp hf
    have hmem : output.toList[i] ∈ output.toList := List.getElem_mem hlt
    have hall := pyStrip_eq_empty_all_space _ he _ hmem
    rw [jsonOpen_not_space _ hopen] at hall
    exact Bool.false_ne_true hall
  unfold extractPayload
  rw [if_neg hne, hf]
  dsimp only
  rw [hp]

/-- Witness for C6: output whose payload token is truncated raises the
parse error with the original text attached. -/
theorem extractor_malformed_raises_witness :
    extractPayload "x [1," =
      .error (.birdwatcherError
        ("Failed to parse JSON: " ++ "Expecting value" ++ "\nOutput: " ++ "x [1,")) :=
  extractor_malformed_raises "x [1," 2 "Expecting value" rfl rfl

/-! ### Claim C9: segment statistics from a single listing -/

/-- C9: `get_segment_stats` performs exactly one underlying segment
listing, and folding the mapped entities of a decoded list with one
FLUSHED 10-of-100 record and one DROPPED 50-of-100 record yields
total 2, healthy 1, total rows 10 (dropped excluded), one FLUSHED and
one DROPPED by state, and one small segment (small counted only among
FLUSHED segments under the 20 percent threshold). -/
theorem segment_stats_single_listing :
    (∀ (ctx : ConnContext) (oracle : String → List SegmentWire) (cid : Option Int),
      (getSegmentStatsRun ctx oracle cid).2.length = 1) ∧
    segmentStats
      [Segment.from_dict { State := some "Flushed", NumOfRows := some 10, MaxRowNum := some 100 },
       Segment.from_dict { State := some "Dropped", NumOfRows := some 50, MaxRowNum := some 100 }] =
      { total := 2, by_state := [("FLUSHED", 1), ("DROPPED", 1)],
        by_level := [("LEGACY", 2)], total_rows := 10,
        healthy_segments := 1, small_segments := 1 } := by
  refine ⟨fun _ _ _ => rfl, ?_⟩
  have h1 : Segment.from_dict
      { State := some "Flushed", NumOfRows := some 10, MaxRowNum := some 100 } =
      { id := 0, collection_id := 0, partition_id := 0, state := .FLUSHED,
        level := .LEGACY, num_rows := 10, max_rows := 100, insert_channel := "",
        storage_version := 0, is_sorted := false, compaction_from := [] } := rfl
  have h2 : Segment.from_dict
      { State := some "Dropped", NumOfRows := some 50, MaxRowNum := some 100 } =
      { id := 0, collection_id := 0, partition_id := 0, state := .DROPPED,
        level := .LEGACY, num_rows := 50, max_rows := 100, insert_channel := "",
        storage_version := 0, is_sorted := false, compaction_from := [] } := rfl
  rw [h1, h2]
  norm_num [segmentStats, statsStep, dictIncr, pyDictSet, Segment.is_small,
    Segment.fill_ratio, SegmentState.pyName, SegmentLevel.pyName]
  decide

/-! ### Claim C10: zero-valued numeric identity filters -/

/-- C10 (as stated) is falsified by `list_collections`: its `db_id`
presence check is `is not None` rather than truthiness, so passing
`db_id = 0` composes a filtered command, not the unfiltered listing. -/
theorem zero_id_filter_counterexample :
    listCollectionsCmd (some 0) none = "show collections --dbid 0" ∧
    listCollectionsCmd none none = "show collections" :=
  ⟨rfl, rfl⟩

/-- C10 amended: for the list/get operations whose optional numeric
identity filters are checked by Python truthiness — `get_collection`,
`list_segments`, `list_indexes`, `list_replicas` — passing `0` composes
the command as if no filter were given: `get_collection(0)` issues the
unfiltered listing and returns its first element rather than the
collection with id 0, and `list_segments(0)` lists all segments.  The
exception is `list_collections`, whose `db_id` check is `is not None`
and does filter on `0`. -/
theorem zero_id_truthiness :
    (∀ name, getCollectionCmd (some 0) name = getCollectionCmd none name) ∧
    (∀ (ctx : ConnContext) (oracle : String → List CollectionWire) (name : Option String),
      getCollectionRun ctx oracle (some 0) name = getCollectionRun ctx oracle none name) ∧
    (∀ pid st lv, listSegmentsCmd (some 0) pid st lv = listSegmentsCmd none pid st lv) ∧
    (∀ cid st lv, listSegmentsCmd cid (some 0) st lv = listSegmentsCmd cid none st lv) ∧
    (∀ (ctx : ConnContext) (oracle : String → List SegmentWire) pid st lv,
      listSegmentsRun ctx oracle (some 0) pid st lv =
        listSegmentsRun ctx oracle none pid st lv) ∧
    listIndexesCmd (some 0) = listIndexesCmd none ∧
    listReplicasCmd (some 0) = listReplicasCmd none ∧
    (getCollectionRun {} (fun _ => [{ ID := some 7 }, { ID := some 0 }]) (some 0) none).1 =
      .ok (some { id := 7, name := "", db_id := 0, state := .COLLECTION_CREATED,
                  schema_version := 0, fields := [], consistency_level := "",
                  virtual_channels := [], physical_channels := [], properties := [] }) :=
  ⟨fun _ => rfl, fun _ _ _ => rfl, fun _ _ _ => rfl, fun _ _ _ => rfl,
   fun _ _ _ _ _ => rfl, rfl, rfl, rfl⟩

/-! ### Occurrence-counting lemmas for the connection-prefix property -/

theorem countOcc_tail_zero (p : List Char) (c : Char) (t : List Char)
    (h : countOcc p (c :: t) = 0) : countOcc p t = 0 := by
  rw [countOcc] at h
  by_cases hpre : p.isPrefixOf (c :: t) <;> simp [hpre] at h
  · exact h

theorem not_prefixOf_of_countOcc_zero (p l : List Char) (hp : p ≠ [])
    (h : countOcc p l = 0) : p.isPrefixOf l = false := by
  cases l with
  | nil =>
    cases p with
    | nil => exact absurd rfl hp
    | cons c t => rfl
  | cons c t =>
    rw [countOcc] at h
    by_cases hpre : p.isPrefixOf (c :: t)
    · simp [hpre] at h
    · exact Bool.not_eq_true _ ▸ (by simpa using hpre)

theorem countOcc_append_zero (p : List Char) (hp : p ≠ []) :
    ∀ a b : List Char, countOcc p a = 0 → countOcc p b = 0 →
      (∀ k, 0 < k → k < p.length → ¬(p.take k <:+ a ∧ p.drop k <+: b)) →
      countOcc p (a ++ b) = 0 := by
  intro a
  induction a with
  | nil =>
    intro b _ hb _
    simpa using hb
  | cons c a' ih =>
    intro b ha hb hstr
    have ha' : countOcc p a' = 0 := countOcc_tail_zero p c a' ha
    have hstr' : ∀ k, 0 < k → k < p.length →
        ¬(p.take k <:+ a' ∧ p.drop k <+: b) := by
      intro k h1 h2 hk
      exact hstr k h1 h2 ⟨hk.1.trans (List.suffix_cons c a'), hk.2⟩
    have hnp : p.isPrefixOf (c :: (a' ++ b)) = false := by
      by_contra hcon
      rw [Bool.not_eq_false] at hcon
      have hpre : p <+: (c :: a') ++ b := List.isPrefixOf_iff_prefix.mp hcon
      by_cases hlen : p.length ≤ (c :: a').length
      · have hpq : p <+: c :: a' := by
          rw [List.prefix_iff_eq_take] at hpre ⊢
          conv_lhs => rw [hpre]
          rw [List.take_append_of_le_length hlen]
        have hb1 : p.isPrefixOf (c :: a') = true := List.isPrefixOf_iff_prefix.mpr hpq
        rw [countOcc, hb1] at ha
        simp at ha
      · push_neg at hlen
        have hk1 : 0 < (c :: a').length := by simp
        apply hstr (c :: a').length hk1 hlen
        obtain ⟨t, ht⟩ := hpre
        constructor
        · have h1 : ((c :: a') ++ b).take (c :: a').length = c :: a' :=
            List.take_left _ _
          rw [← ht] at h1
          rw [List.take_append_of_le_length hlen.le] at h1
          rw [h1]
        · have h1 : ((c :: a') ++ b).drop (c :: a').length = b :=
            List.drop_left _ _
          rw [← ht] at h1
          rw [List.drop_append_of_le_length hlen.le] at h1
          exact ⟨t, h1⟩
    rw [List.cons_append, countOcc, hnp]
    simpa using ih b ha' hb hstr'


theorem countOcc_append_zero_right (p a b : List Char) (c : Char) (hp : p ≠ [])
    (ha : countOcc p a = 0) (hb : countOcc p b = 0)
    (hhead : b.head? = some c) (hc : c ∉ p.drop 1) :
    countOcc p (a ++ b) = 0 := by
  refine countOcc_append_zero p hp a b ha hb ?_
  intro k hk1 hk2 hk
  obtain ⟨-, t, ht⟩ := hk
  have hne : p.drop k ≠ [] := by
    rw [ne_eq, List.drop_eq_nil_iff]
    omega
  have hhd : (p.drop k).head? = p[k]? := List.head?_drop p k
  have hbh : b.head? = (p.drop k).head? := by
    rw [← ht, List.head?_append]
    cases hdk : (p.drop k).head? with
    | none => exact absurd (List.head?_eq_none_iff.mp hdk) hne
    | some x => rfl
  apply hc
  have : p[k]? = some c := by
    rw [← hhd, ← hbh, hhead]
  have h1 : (p.drop 1)[k - 1]? = some c := by
    rw [List.getElem?_drop]
    have : 1 + (k - 1) = k := by omega
    rw [this]
    assumption
  exact List.getElem?_mem h1

theorem countOcc_append_zero_left (p a b : List Char) (c : Char) (hp : p ≠ [])
    (ha : countOcc p a = 0) (hb : countOcc p b = 0)
    (hlast : a.getLast? = some c) (hc : c ∉ p.dropLast) :
    countOcc p (a ++ b) = 0 := by
  refine countOcc_append_zero p hp a b ha hb ?_
  intro k hk1 hk2 hk
  obtain ⟨⟨t, ht⟩, -⟩ := hk
  have hlen : (p.take k).length = k := by
    rw [List.length_take]
    omega
  have hne : p.take k ≠ [] := by
    intro h0
    rw [h0] at hlen
    simp at hlen
    omega
  have hgl : (p.take k).getLast? = p[k - 1]? := by
    rw [List.getLast?_eq_getElem?, hlen, List.getElem?_take_of_lt (by omega)]
  have hal : a.getLast? = (p.take k).getLast? := by
    rw [← ht, List.getLast?_append]
    cases hdk : (p.take k).getLast? with
    | none => exact absurd (List.getLast?_eq_none_iff.mp hdk) hne
    | some x => rfl
  apply hc
  have hpk : p[k - 1]? = some c := by
    rw [← hgl, ← hal, hlast]
  have h1 : p.dropLast[k - 1]? = some c := by
    rw [List.dropLast_eq_take, List.getElem?_take_of_lt (by omega)]
    exact hpk
  exact List.getElem?_mem h1

theorem countOcc_zero_of_head_not_mem (c0 : Char) (p' l : List Char) (h : c0 ∉ l) :
    countOcc (c0 :: p') l = 0 := by
  induction l with
  | nil => rfl
  | cons c t ih =>
    simp only [List.mem_cons, not_or] at h
    rw [countOcc]
    have hpre : (c0 :: p').isPrefixOf (c :: t) = false := by
      rw [List.isPrefixOf_cons₂]
      simp [h.1]
    rw [hpre]
    simpa using ih h.2

theorem countOcc_append_part (p a b : List Char) (hp : p ≠ [])
    (ha : countOcc p a = 0)
    (hb : b = [] ∨ (countOcc p b = 0 ∧ ∃ c, b.head? = some c ∧ c ∉ p.drop 1)) :
    countOcc p (a ++ b) = 0 := by
  rcases hb with rfl | ⟨hb0, c, hh, hc⟩
  · simpa using ha
  · exact countOcc_append_zero_right p a b c hp ha hb0 hh hc

theorem natDigitsAux_digits (fuel : Nat) :
    ∀ (n : Nat), ∀ c ∈ natDigitsAux fuel n,
      c ∈ ['0', '1', '2', '3', '4', '5', '6', '7', '8', '9'] := by
  induction fuel with
  | zero =>
    intro n c hc
    simp [natDigitsAux] at hc
  | succ fuel ih =>
    intro n c hc
    rw [natDigitsAux] at hc
    by_cases h : n < 10
    · rw [if_pos h] at hc
      simp only [List.mem_singleton] at hc
      subst hc
      interval_cases n <;> decide
    · rw [if_neg h] at hc
      rcases List.mem_append.mp hc with h1 | h1
      · exact ih _ c h1
      · simp only [List.mem_singleton] at h1
        subst h1
        have hm : n % 10 < 10 := Nat.mod_lt _ (by norm_num)
        generalize n % 10 = m at hm
        interval_cases m <;> decide

theorem pyStrNat_digits (m : Nat) :
    ∀ c ∈ (pyStrNat m).toList, c ∈ ['0', '1', '2', '3', '4', '5', '6', '7', '8', '9'] := by
  intro c hc
  exact natDigitsAux_digits (m + 1) m c hc

theorem pyStrInt_connectFree (n : Int) :
    countOcc ("connect".toList) (pyStrInt n).toList = 0 := by
  have hcp : "connect".toList = 'c' :: "onnect".toList := rfl
  cases n with
  | ofNat m =>
    rw [hcp]
    apply countOcc_zero_of_head_not_mem
    intro hmem
    have := pyStrNat_digits m 'c' hmem
    simp at this
  | negSucc m =>
    rw [hcp]
    apply countOcc_zero_of_head_not_mem
    intro hmem
    have hmem2 : 'c' ∈ ("-").toList ++ (pyStrNat (m + 1)).toList := by
      rw [← toList_append]
      exact hmem
    rcases List.mem_append.mp hmem2 with h1 | h1
    · simp at h1
    · have := pyStrNat_digits (m + 1) 'c' h1
      simp at this

theorem partOk_flag (lit s : String) (cond : Bool)
    (hlit0 : countOcc ("connect".toList) lit.toList = 0)
    (hlit1 : lit.toList.head? = some ' ')
    (hlit2 : lit.toList.getLast? = some ' ')
    (hs : countOcc ("connect".toList) s.toList = 0) :
    (if cond then lit ++ s else "").toList = [] ∨
      (countOcc ("connect".toList) (if cond then lit ++ s else "").toList = 0 ∧
       ∃ c, (if cond then lit ++ s else "").toList.head? = some c ∧
         c ∉ ("connect".toList).drop 1) := by
  cases cond
  · exact Or.inl rfl
  · right
    refine ⟨?_, ' ', ?_, by decide⟩
    · show countOcc ("connect".toList) (lit ++ s).toList = 0
      rw [toList_append]
      exact countOcc_append_zero_left _ _ _ ' ' (by decide) hlit0 hs hlit2 (by decide)
    · show (lit ++ s).toList.head? = some ' '
      rw [toList_append, List.head?_append, hlit1]
      rfl

theorem head?_append_lit (x y : String) (c : Char) (h : x.toList.head? = some c) :
    (x ++ y).toList.head? = some c := by
  rw [toList_append, List.head?_append, h]
  rfl

theorem jsonCommand_connectFree (s : String)
    (hs : countOcc ("connect".toList) s.toList = 0) :
    countOccS "connect" (jsonCommand s) = 0 := by
  unfold countOccS jsonCommand
  rw [toList_append]
  exact countOcc_append_part _ _ _ (by decide) hs
    (Or.inr ⟨by decide, ' ', rfl, by decide⟩)



theorem opCommand_connectFree (op : Op) (hP : op.paramsConnectFree) :
    countOccS "connect" op.command = 0 := by
  cases op with
  | listSessions => decide
  | listDatabases => decide
  | healthz => decide
  | version => decide
  | getSegment sid =>
    apply jsonCommand_connectFree
    rw [show (getSegmentCmd sid) = "show segment --segment " ++ pyStrInt sid from rfl,
      toList_append]
    exact countOcc_append_zero_left _ _ _ ' ' (by decide) (by decide)
      (pyStrInt_connectFree sid) (by decide) (by decide)
  | listPartitions cid =>
    apply jsonCommand_connectFree
    rw [show (listPartitionsCmd cid) = "show partition --collection " ++ pyStrInt cid from rfl,
      toList_append]
    exact countOcc_append_zero_left _ _ _ ' ' (by decide) (by decide)
      (pyStrInt_connectFree cid) (by decide) (by decide)
  | listCheckpoints cid =>
    apply jsonCommand_connectFree
    rw [show (listCheckpointsCmd cid) = "show checkpoint --collection " ++ pyStrInt cid from rfl,
      toList_append]
    exact countOcc_append_zero_left _ _ _ ' ' (by decide) (by decide)
      (pyStrInt_connectFree cid) (by decide) (by decide)
  | listIndexes c =>
    apply jsonCommand_connectFree
    unfold listIndexesCmd
    rw [toList_append]
    exact countOcc_append_part _ _ _ (by decide) (by decide)
      (partOk_flag " --collection " (pyStrInt (c.getD 0)) (truthyInt c)
        (by decide) rfl (by decide) (pyStrInt_connectFree _))
  | listReplicas c =>
    apply jsonCommand_connectFree
    unfold listReplicasCmd
    rw [toList_append]
    exact countOcc_append_part _ _ _ (by decide) (by decide)
      (partOk_flag " --collection " (pyStrInt (c.getD 0)) (truthyInt c)
        (by decide) rfl (by decide) (pyStrInt_connectFree _))
  | listCollections d s =>
    apply jsonCommand_connectFree
    unfold listCollectionsCmd
    rw [toList_append, toList_append]
    refine countOcc_append_part _ _ _ (by decide) ?_
      (partOk_flag " --state " (s.getD "") (truthyStr s)
        (by decide) rfl (by decide) hP)
    refine countOcc_append_part _ _ _ (by decide) (by decide) ?_
    cases d with
    | none => exact Or.inl rfl
    | some n =>
      right
      refine ⟨?_, ' ', ?_, by decide⟩
      · show countOcc ("connect".toList) (" --dbid " ++ pyStrInt n).toList = 0
        rw [toList_append]
        exact countOcc_append_zero_left _ _ _ ' ' (by decide) (by decide)
          (pyStrInt_connectFree n) (by decide) (by decide)
      · show (" --dbid " ++ pyStrInt n).toList.head? = some ' '
        rw [toList_append, List.head?_append]
        rfl
  | getCollection c n =>
    apply jsonCommand_connectFree
    unfold getCollectionCmd
    rw [toList_append, toList_append]
    refine countOcc_append_part _ _ _ (by decide) ?_
      (partOk_flag " --name " (n.getD "") (truthyStr n)
        (by decide) rfl (by decide) hP)
    exact countOcc_append_part _ _ _ (by decide) (by decide)
      (partOk_flag " --id " (pyStrInt (c.getD 0)) (truthyInt c)
        (by decide) rfl (by decide) (pyStrInt_connectFree _))
  | listSegments c pid st lv =>
    apply jsonCommand_connectFree
    unfold listSegmentsCmd
    rw [toList_append, toList_append, toList_append]
    have hst : (match st with
        | some a => if a.truthy then " --state " ++ a.text else ""
        | none => "").toList = [] ∨
        (countOcc ("connect".toList) (match st with
          | some a => if a.truthy then " --state " ++ a.text else ""
          | none => "").toList = 0 ∧
         ∃ ch, (match st with
          | some a => if a.truthy then " --state " ++ a.text else ""
          | none => "").toList.head? = some ch ∧ ch ∉ ("connect".toList).drop 1) := by
      cases st with
      | none => exact Or.inl rfl
      | some a =>
        refine partOk_flag " --state " a.text a.truthy (by decide) rfl (by decide) ?_
        cases a with
        | str s => exact hP.1
        | enum e => cases e <;> decide
    have hlv : (match lv with
        | some a => if a.truthy then " --level " ++ a.text else ""
        | none => "").toList = [] ∨
        (countOcc ("connect".toList) (match lv with
          | some a => if a.truthy then " --level " ++ a.text else ""
          | none => "").toList = 0 ∧
         ∃ ch, (match lv with
          | some a => if a.truthy then " --level " ++ a.text else ""
          | none => "").toList.head? = some ch ∧ ch ∉ ("connect".toList).drop 1) := by
      cases lv with
      | none => exact Or.inl rfl
      | some a =>
        refine partOk_flag " --level " a.text a.truthy (by decide) rfl (by decide) ?_
        cases a with
        | str s => exact hP.2
        | enum e => cases e <;> decide
    refine countOcc_append_part _ _ _ (by decide) ?_ hlv
    refine countOcc_append_part _ _ _ (by decide) ?_ hst
    refine countOcc_append_part _ _ _ (by decide) ?_
      (partOk_flag " --partition " (pyStrInt (pid.getD 0)) (truthyInt pid)
        (by decide) rfl (by decide) (pyStrInt_connectFree _))
    exact countOcc_append_part _ _ _ (by decide) (by decide)
      (partOk_flag " --collection " (pyStrInt (c.getD 0)) (truthyInt c)
        (by decide) rfl (by decide) (pyStrInt_connectFree _))


theorem not_startsWith_connect_of_clean (s : String)
    (h : countOccS "connect" s = 0) : pyStartsWith s "connect" = false :=
  not_prefixOf_of_countOcc_zero _ _ (by decide) h

theorem countOcc_cons_eq (p : List Char) (c : Char) (t : List Char) :
    countOcc p (c :: t) = (if p.isPrefixOf (c :: t) then 1 else 0) + countOcc p t := rfl

theorem safeHead_append (p x y : List Char)
    (hx : x = [] ∨ ∃ c, x.head? = some c ∧ c ∉ p.drop 1)
    (hy : ∃ c, y.head? = some c ∧ c ∉ p.drop 1) :
    ∃ c, (x ++ y).head? = some c ∧ c ∉ p.drop 1 := by
  rcases hx with rfl | ⟨c, hc, hcn⟩
  · simpa using hy
  · exact ⟨c, by rw [List.head?_append, hc]; rfl, hcn⟩

theorem countOcc_append_zero_safe (p x y : List Char) (hp : p ≠ [])
    (hx : countOcc p x = 0) (hy : countOcc p y = 0)
    (hyh : ∃ c, y.head? = some c ∧ c ∉ p.drop 1) :
    countOcc p (x ++ y) = 0 := by
  obtain ⟨c, hc, hcn⟩ := hyh
  exact countOcc_append_zero_right p x y c hp hx hy hc hcn

theorem countOcc_conn_full (rest : List Char)
    (hrest : countOcc ("connect".toList) rest = 0) :
    countOcc ("connect".toList) (("connect --etcd ").toList ++ rest) = 1 := by
  have hpre : ("connect".toList).isPrefixOf (("connect --etcd ").toList ++ rest) = true :=
    List.isPrefixOf_iff_prefix.mpr
      ((by decide : ("connect".toList) <+: ("connect --etcd ").toList).trans
        (List.prefix_append _ _))
  have hT : countOcc ("connect".toList) (("onnect --etcd ").toList ++ rest) = 0 :=
    countOcc_append_zero_left _ _ _ ' ' (by decide) (by decide) hrest (by decide) (by decide)
  have h1 : ("connect --etcd ").toList = 'c' :: ("onnect --etcd ").toList := rfl
  rw [h1, List.cons_append] at hpre ⊢
  rw [countOcc_cons_eq, hpre, hT]
  simp

theorem countOcc_compose_one (ctx : ConnContext) (cmd : String)
    (hA : connectFree (ctx.etcd_addr.getD ""))
    (hR : connectFree (ctx.root_path.getD ""))
    (hcmd : countOccS "connect" cmd = 0) :
    countOccS "connect" (connectCommand ctx ++ ", " ++ cmd) = 1 := by
  unfold connectFree at hA hR
  unfold countOccS at hA hR hcmd ⊢
  have t00 : countOcc ("connect".toList) ((", ").toList ++ cmd.toList) = 0 :=
    countOcc_append_zero_left _ _ _ ' ' (by decide) (by decide) hcmd (by decide) (by decide)
  have t0h : ∃ c, ((", ").toList ++ cmd.toList).head? = some c ∧
      c ∉ ("connect".toList).drop 1 :=
    ⟨',', by rw [List.head?_append]; rfl, by decide⟩
  unfold connectCommand
  cases hrt : truthyStr ctx.root_path <;> cases hat : ctx.auto_detect <;>
    simp only [if_true, if_false, Bool.false_eq_true, toList_append, List.append_assoc]
  · -- no root path, no auto
    rw [show ("" : String).toList = [] from rfl]
    simp only [List.nil_append]
    apply countOcc_conn_full
    exact countOcc_append_zero_safe _ _ _ (by decide) hA t00 t0h
  · -- no root path, auto
    rw [show ("" : String).toList = [] from rfl]
    simp only [List.nil_append]
    apply countOcc_conn_full
    refine countOcc_append_zero_safe _ _ _ (by decide) hA ?_ ?_
    · exact countOcc_append_zero_safe _ _ _ (by decide) (by decide) t00 t0h
    · exact ⟨' ', by rw [List.head?_append]; rfl, by decide⟩
  · -- root path, no auto
    rw [show ("" : String).toList = [] from rfl]
    simp only [List.nil_append]
    apply countOcc_conn_full
    refine countOcc_append_zero_safe _ _ _ (by decide) hA ?_ ?_
    · refine countOcc_append_zero_left _ _ _ ' ' (by decide) (by decide) ?_ (by decide) (by decide)
      exact countOcc_append_zero_safe _ _ _ (by decide) hR t00 t0h
    · exact ⟨' ', by rw [List.head?_append]; rfl, by decide⟩
  · -- root path and auto
    apply countOcc_conn_full
    refine countOcc_append_zero_safe _ _ _ (by decide) hA ?_ ?_
    · refine countOcc_append_zero_left _ _ _ ' ' (by decide) (by decide) ?_ (by decide) (by decide)
      refine countOcc_append_zero_safe _ _ _ (by decide) hR ?_ ?_
      · exact countOcc_append_zero_safe _ _ _ (by decide) (by decide) t00 t0h
      · exact ⟨' ', by rw [List.head?_append]; rfl, by decide⟩
    · exact ⟨' ', by rw [List.head?_append]; rfl, by decide⟩

/-! ### Claim C3: exactly one connection sub-command prefix -/

/-- C3: for every logical operation and every filter-parameter
combination (parameters themselves free of the `connect` keyword, which
integer parameters always are), the composed command string contains
exactly one occurrence of the `connect` keyword — the connection
sub-command built from the stored address, plus the root namespace when
set and the auto-detect flag when enabled, joined to the operation with
the `", "` multi-statement separator — when a target address is set in
the connection context (no client operation is itself a connect
operation), and zero occurrences otherwise. -/
theorem connect_subcommand_exactly_once (ctx : ConnContext) (op : Op)
    (hA : connectFree (ctx.etcd_addr.getD ""))
    (hR : connectFree (ctx.root_path.getD ""))
    (hP : op.paramsConnectFree) :
    (truthyStr ctx.etcd_addr = true →
      composeFull ctx op.command = connectCommand ctx ++ ", " ++ op.command ∧
      countOccS "connect" (composeFull ctx op.command) = 1) ∧
    (truthyStr ctx.etcd_addr = false →
      composeFull ctx op.command = op.command ∧
      countOccS "connect" (composeFull ctx op.command) = 0) := by
  have hop := opCommand_connectFree op hP
  have hns := not_startsWith_connect_of_clean _ hop
  constructor
  · intro ht
    have heq : composeFull ctx op.command = connectCommand ctx ++ ", " ++ op.command := by
      unfold composeFull
      rw [ht, hns]
      rfl
    refine ⟨heq, ?_⟩
    rw [heq]
    exact countOcc_compose_one ctx op.command hA hR hop
  · intro hf
    have heq : composeFull ctx op.command = op.command := by
      unfold composeFull
      rw [hf]
      rfl
    exact ⟨heq, by rw [heq]; exact hop⟩

/-- Witness for C3: a concrete context with address, root path and
auto-detect composes a filtered segment listing into one connect-prefixed
command with exactly one `connect` occurrence. -/
theorem connect_subcommand_exactly_once_witness :
    composeFull { etcd_addr := some "localhost:2379", root_path := some "by-dev",
                  auto_detect := true }
        (Op.listSegments (some 5) none none none).command =
      "connect --etcd localhost:2379 --rootPath by-dev --auto, " ++
        "show segment --collection 5 --format json" ∧
    countOccS "connect"
      (composeFull { etcd_addr := some "localhost:2379", root_path := some "by-dev",
                     auto_detect := true }
        (Op.listSegments (some 5) none none none).command) = 1 := by
  have h := (connect_subcommand_exactly_once
    { etcd_addr := some "localhost:2379", root_path := some "by-dev", auto_detect := true }
    (Op.listSegments (some 5) none none none) (by decide) (by decide)
    ⟨trivial, trivial⟩).1 rfl
  refine ⟨?_, h.2⟩
  rw [h.1]
  rfl
